import Mathlib

/- Shallow embedding of the numerical core of the telecom-tools-api
   repository (src/app/services/rf_calculations.py,
   src/app/services/coverage_analysis.py and
   src/app/services/recommendation_engine.py).

   Conventions of the embedding:
   * Python floats are modeled as exact rationals (`ℚ`).
   * `math.log10` and `math.cos` are transcendental, so they are taken as
     function parameters of type `ℚ → ℚ`; every theorem below holds for an
     arbitrary interpretation of them unless a hypothesis pins down the
     value actually needed (for example that a cosine value is negative).
   * `math.pi` is modeled by the decimal rendering of the IEEE-754 double
     constant, `3.141592653589793`.
   * `math.log10` raises `ValueError: math domain error` on a non-positive
     argument; this is modeled by `Except DomainError`, matching the
     spec's error taxonomy.
   * Python `int()` truncates toward zero and Python `round()` rounds to
     the nearest value with ties to even; both are modeled explicitly. -/

namespace Telecom

/-- Rational stand-in for the Python constant `math.pi`. -/
def MATH_PI : ℚ := 3.141592653589793

/-- Python `int(x)`: truncation toward zero. -/
def pyInt (q : ℚ) : ℤ := if 0 ≤ q then ⌊q⌋ else ⌈q⌉

/-- Round a rational to the nearest integer with ties going to the even
integer, the rounding mode of Python `round`. -/
def roundHalfEven (q : ℚ) : ℤ :=
  let f := ⌊q⌋
  let r := q - f
  if r < 1/2 then f
  else if 1/2 < r then f + 1
  else if f % 2 = 0 then f else f + 1

/-- Python `round(x, n)` with `n` decimal digits. -/
def pyRound (q : ℚ) (n : ℕ) : ℚ := (roundHalfEven (q * 10 ^ n) : ℚ) / 10 ^ n

/-- Error raised by Python `math.log10` on a non-positive argument
(`ValueError: math domain error`); this is the `DomainError` of the
spec's error taxonomy. -/
inductive DomainError where
  | mathDomainError
deriving DecidableEq, Repr

/-- Python `math.log10`: defined only on positive arguments; on positive
arguments its value is given by the uninterpreted parameter `log10`. -/
def mathLog10 (log10 : ℚ → ℚ) (x : ℚ) : Except DomainError ℚ :=
  if 0 < x then .ok (log10 x) else .error .mathDomainError

/-- `RFCalculations.friis_path_loss` (rf_calculations.py lines 10-27):
`20*log10(distance_m) + 20*log10(frequency_ghz) + 92.45`, where
`distance_m = distance_km * 1000` and `frequency_ghz = frequency_mhz / 1000`.
The two `math.log10` calls are evaluated in source order. -/
def friis_path_loss (log10 : ℚ → ℚ) (frequency_mhz distance_km : ℚ) :
    Except DomainError ℚ := do
  let distance_m := distance_km * 1000
  let frequency_ghz := frequency_mhz / 1000
  let ld ← mathLog10 log10 distance_m
  let lf ← mathLog10 log10 frequency_ghz
  pure (20 * ld + 20 * lf + 92.45)

/-- `RFCalculations.okumura_hata_path_loss` (rf_calculations.py lines
29-69).  Python defaults are `tx_height_m=30`, `rx_height_m=1.5`,
`environment="urban"`; callers in this file always pass them explicitly.
The `math.log10` calls appear in the evaluation order of the source. -/
def okumura_hata_path_loss (log10 : ℚ → ℚ)
    (frequency_mhz distance_km tx_height_m rx_height_m : ℚ)
    (environment : String) : Except DomainError ℚ := do
  let a_hr ←
    if frequency_mhz ≤ 200 then
      (mathLog10 log10 (1.54 * rx_height_m)).map (fun l => 8.29 * l ^ 2 - 1.1)
    else
      (mathLog10 log10 (11.75 * rx_height_m)).map (fun l => 3.2 * l ^ 2 - 4.97)
  let lf ← mathLog10 log10 frequency_mhz
  let lh ← mathLog10 log10 tx_height_m
  let ld ← mathLog10 log10 distance_km
  let L50 := 69.55 + 26.16 * lf - 13.82 * lh - a_hr + (44.9 - 6.55 * lh) * ld
  if environment = "suburban" then do
    let ls ← mathLog10 log10 (frequency_mhz / 28)
    pure (L50 - (2 * ls ^ 2 + 5.4))
  else if environment = "rural" then
    pure (L50 - (4.78 * lf ^ 2 + 18.33 * lf + 40.94))
  else
    pure L50

/-- `RFCalculations.estimate_signal_from_tower` (rf_calculations.py lines
291-334).  Python defaults are `tx_power_dbm=43`, `tx_gain_dbi=15`,
`rx_gain_dbi=0`, `frequency_mhz=2100`, `tx_height_m=30`,
`rx_height_m=1.5`.  Note: for `distance_km < 0.01` the source returns
`tx_power_dbm` directly, without applying the final clamp. -/
def estimate_signal_from_tower (log10 : ℚ → ℚ)
    (distance_km tx_power_dbm tx_gain_dbi rx_gain_dbi frequency_mhz
      tx_height_m rx_height_m : ℚ) : Except DomainError ℚ :=
  if distance_km < 0.01 then .ok tx_power_dbm
  else do
    let path_loss ← okumura_hata_path_loss log10 frequency_mhz distance_km
      tx_height_m rx_height_m "urban"
    let eirp_dbm := tx_power_dbm + tx_gain_dbi
    let rx_power_dbm := eirp_dbm - path_loss + rx_gain_dbi
    pure (max (-120) (min 0 rx_power_dbm))

/-- Loop body of `CoverageAnalyzer.point_in_polygon` (coverage_analysis.py
lines 15-43).  The point is `(lat, lng)`, `p1` is the current edge start,
the list holds the successive edge ends `polygon[1], ..., polygon[n-1],
polygon[0]`.  When the three guards hold, `lng > min(p1_lng, p2_lng)` and
`lng <= max(p1_lng, p2_lng)` force `p1_lng ≠ p2_lng`, so the source's
`if p1_lng != p2_lng` test is always true at that point and `x_inters` is
always freshly assigned before being read; the embedding therefore
computes it inline (rational division is total, and when
`p1_lat == p2_lat` the source's `or` short-circuits before reading
`x_inters`, so the value is irrelevant there). -/
def pipLoop (lat lng : ℚ) : ℚ × ℚ → List (ℚ × ℚ) → Bool → Bool
  | _, [], inside => inside
  | p1, p2 :: rest, inside =>
    let inside' :=
      if min p1.2 p2.2 < lng ∧ lng ≤ max p1.2 p2.2 ∧ lat ≤ max p1.1 p2.1 then
        if p1.1 = p2.1 ∨ lat ≤ (lng - p1.2) * (p2.1 - p1.1) / (p2.2 - p1.2) + p1.1 then
          !inside
        else inside
      else inside
    pipLoop lat lng p2 rest inside'

/-- `CoverageAnalyzer.point_in_polygon` (coverage_analysis.py lines 15-43):
ray casting over the edges `polygon[i] → polygon[(i+1) % n]`.  A point is
a `(lat, lng)` pair, polygon vertices are `[lat, lng]` pairs.  Python
raises `IndexError` on an empty polygon (`polygon[0]`); the claims only
use non-empty polygons. -/
def point_in_polygon (point : ℚ × ℚ) (polygon : List (ℚ × ℚ)) : Bool :=
  match polygon with
  | [] => false
  | p0 :: rest => pipLoop point.1 point.2 p0 (rest ++ [p0]) false

/-- Bounding box returned by `CoverageAnalyzer.get_polygon_bounds`
(coverage_analysis.py lines 45-64). -/
structure Bounds where
  min_lat : ℚ
  max_lat : ℚ
  min_lng : ℚ
  max_lng : ℚ
deriving DecidableEq, Repr

/-- `CoverageAnalyzer.get_polygon_bounds`: the min/max of the latitude and
longitude components.  Python `min`/`max` raise `ValueError` on an empty
list; the claims only use non-empty polygons, so the empty case returns a
junk bounding box. -/
def get_polygon_bounds (polygon : List (ℚ × ℚ)) : Bounds :=
  match polygon with
  | [] => ⟨0, 0, 0, 0⟩
  | p :: ps =>
    { min_lat := (ps.map Prod.fst).foldl min p.1
      max_lat := (ps.map Prod.fst).foldl max p.1
      min_lng := (ps.map Prod.snd).foldl min p.2
      max_lng := (ps.map Prod.snd).foldl max p.2 }

/-- Python `math.radians(deg)`: `deg * pi / 180`. -/
def radians (deg : ℚ) : ℚ := deg * MATH_PI / 180

/-- Fuel-indexed model of the inner `while lng <= max_lng` loop of
`CoverageAnalyzer.generate_grid` (coverage_analysis.py lines 130-132);
the longitude values appended by the loop, in order.  `none` means the
fuel ran out before the loop condition failed; the loop diverges exactly
when the result is `none` for every fuel. -/
def lngLoopF (maxLng lngStep : ℚ) : ℕ → ℚ → Option (List ℚ)
  | 0, _ => none
  | fuel + 1, lng =>
    if lng ≤ maxLng then (lngLoopF maxLng lngStep fuel (lng + lngStep)).map (lng :: ·)
    else some []

/-- Fuel-indexed model of the outer `while lat <= max_lat` loop of
`CoverageAnalyzer.generate_grid` (coverage_analysis.py lines 127-133),
producing the row-major `(lat, lng)` grid. -/
def latLoopF (maxLat latStep minLng maxLng lngStep : ℚ) :
    ℕ → ℚ → Option (List (ℚ × ℚ))
  | 0, _ => none
  | fuel + 1, lat =>
    if lat ≤ maxLat then
      match lngLoopF maxLng lngStep fuel minLng with
      | none => none
      | some row =>
        (latLoopF maxLat latStep minLng maxLng lngStep fuel (lat + latStep)).map
          (fun rest => row.map (fun lng => (lat, lng)) ++ rest)
    else some []

/-- `CoverageAnalyzer.generate_grid` (coverage_analysis.py lines 101-135).
`cosRad` is the uninterpreted model of Python `math.cos`.  The two `while`
loops are modeled with fuel: the source call terminates and returns the
grid `g` exactly when the value is `some g` for all sufficiently large
fuel, and loops forever exactly when the value is `none` for every
fuel. -/
def generate_grid (cosRad : ℚ → ℚ) (bounds : Bounds) (grid_step_km : ℚ)
    (fuel : ℕ) : Option (List (ℚ × ℚ)) :=
  let center_lat := (bounds.min_lat + bounds.max_lat) / 2
  let lat_km_per_degree : ℚ := 111
  let lng_km_per_degree : ℚ := 111 * cosRad (radians center_lat)
  let lat_step_deg := grid_step_km / lat_km_per_degree
  let lng_step_deg := grid_step_km / lng_km_per_degree
  latLoopF bounds.max_lat lat_step_deg bounds.min_lng bounds.max_lng
    lng_step_deg fuel bounds.min_lat

/-- Statistics record returned by `CoverageAnalyzer.analyze_coverage`
(coverage_analysis.py lines 253-262). -/
structure CoverageStats where
  coverage_pct : ℚ
  gap_area_km2 : ℚ
  total_area_km2 : ℚ
  avg_signal_dbm : Option ℚ
  grid_points_analyzed : ℕ
deriving DecidableEq, Repr

/-- Statistics stage of `CoverageAnalyzer.analyze_coverage`
(coverage_analysis.py lines 182-262), as a function of the list `signals`
of `signal_dbm` values estimated at the grid points inside the polygon
(one entry per analyzed point, in grid order) and of the polygon area.
The per-point pipeline that produces `signals` (grid generation, polygon
membership, nearest tower, `estimate_signal_from_tower`, lines 179-227)
does not mention `threshold_dbm`; the threshold enters only the
covered-point count at line 230 (`signal_dbm >= threshold_dbm`), so for a
fixed polygon, tower list and grid step the list `signals` is fixed while
the threshold varies. -/
def coverage_statistics (signals : List ℚ) (total_area_km2 threshold_dbm : ℚ) :
    CoverageStats :=
  let covered_count := signals.countP (fun s => decide (threshold_dbm ≤ s))
  let signal_count := signals.length
  let coverage_pct : ℚ :=
    if signal_count = 0 then 0 else ((covered_count : ℚ) / (signal_count : ℚ)) * 100
  let avg_signal : Option ℚ :=
    if signal_count = 0 then none
    else some (pyRound (signals.sum / (signal_count : ℚ)) 1)
  let gap_area_km2 := total_area_km2 * (1 - coverage_pct / 100)
  { coverage_pct := pyRound coverage_pct 1
    gap_area_km2 := pyRound gap_area_km2 2
    total_area_km2 := pyRound total_area_km2 2
    avg_signal_dbm := avg_signal
    grid_points_analyzed := signal_count }

/-- `GapZone` dataclass (recommendation_engine.py lines 19-24). -/
structure GapZone where
  latitude : ℚ
  longitude : ℚ
  area_km2 : ℚ
deriving DecidableEq, Repr

/-- `PriorityLevel` enum (recommendation_engine.py lines 12-16). -/
inductive PriorityLevel where
  | high
  | medium
  | low
deriving DecidableEq, Repr

/-- `Recommendation` dataclass (recommendation_engine.py lines 27-37).
The `reason` string field is omitted: no claim refers to it. -/
structure Recommendation where
  latitude : ℚ
  longitude : ℚ
  score : ℚ
  priority : PriorityLevel
  population_reached : ℤ
  cluster_id : ℕ
  gap_count : ℕ
deriving DecidableEq, Repr

/-- `RecommendationEngine.CLUSTERING_RADIUS_KM` (recommendation_engine.py
line 66). -/
def CLUSTERING_RADIUS_KM : ℚ := 2

/-- `RecommendationEngine.POPULATION_DENSITY_PER_KM2`
(recommendation_engine.py line 68). -/
def POPULATION_DENSITY_PER_KM2 : ℚ := 500

/-- `RecommendationEngine.cluster_gaps` (recommendation_engine.py lines
87-123).  The source iterates index `i` over the gap list in input order,
skipping indices already in the `assigned` set; an unassigned `gap` opens
a new cluster and the inner loop over `j in range(i+1, len(gaps))` absorbs
every still-unassigned later gap within `radius_km` of `gap` (the cluster
seed).  Every index `< i` is assigned when iteration `i` starts (it was
either a seed or absorbed), so the loop is equivalent to this recursion on
the ordered list of still-unassigned gaps: the head seeds a cluster made
of itself and the in-radius part of the tail (in input order, as appended
by the source), and the recursion continues on the out-of-radius part of
the tail.  `dist` is the uninterpreted model of
`RecommendationEngine.haversine_distance`. -/
def cluster_gaps (dist : GapZone → GapZone → ℚ) (radius_km : ℚ) :
    List GapZone → List (List GapZone)
  | [] => []
  | gap :: rest =>
    (gap :: rest.filter (fun g => decide (dist gap g ≤ radius_km))) ::
      cluster_gaps dist radius_km
        (rest.filter (fun g => !decide (dist gap g ≤ radius_km)))
termination_by l => l.length
decreasing_by
  simpa using Nat.lt_succ_of_le
    (List.length_filter_le (fun g => !decide (dist gap g ≤ radius_km)) rest)

/-- `RecommendationEngine.calculate_cluster_centroid`
(recommendation_engine.py lines 125-139): mean latitude, mean longitude
and total area of the cluster members; `(0, 0, 0)` for an empty list. -/
def calculate_cluster_centroid (gaps : List GapZone) : ℚ × ℚ × ℚ :=
  match gaps with
  | [] => (0, 0, 0)
  | _ :: _ =>
    ((gaps.map GapZone.latitude).sum / (gaps.length : ℚ),
     (gaps.map GapZone.longitude).sum / (gaps.length : ℚ),
     (gaps.map GapZone.area_km2).sum)

/-- `RecommendationEngine.calculate_priority` (recommendation_engine.py
lines 141-149). -/
def calculate_priority (score : ℚ) : PriorityLevel :=
  if 5 < score then .high
  else if 2 ≤ score then .medium
  else .low

/-- `RecommendationEngine.estimate_population_reached`
(recommendation_engine.py lines 151-171).  `frac` is the source's local
variable for the proportional cap.  Note the `area_km2 <= 0` fallback
returns the full typical-footprint population, not zero. -/
def estimate_population_reached (area_km2 : ℚ) : ℤ :=
  let density := POPULATION_DENSITY_PER_KM2
  let coverage_radius_km : ℚ := 3.5
  let typical_coverage_area_km2 := MATH_PI * coverage_radius_km ^ 2
  if 0 < area_km2 then
    let frac := min (area_km2 / typical_coverage_area_km2) 1
    pyInt (density * typical_coverage_area_km2 * frac)
  else
    pyInt (density * typical_coverage_area_km2)

/-- Modelled from the spec: `population_reached = density ×
typical_coverage_area_km2 × min(total_area/typical_coverage_area_km2, 1)`
with `typical_coverage_area_km2 = π × 3.5²` and density 500, truncated to
an integer.  Stated for comparison with the source function
`estimate_population_reached`. -/
def spec_population_formula (total_area : ℚ) : ℤ :=
  pyInt (500 * (MATH_PI * (3.5 : ℚ) ^ 2) *
    min (total_area / (MATH_PI * (3.5 : ℚ) ^ 2)) 1)

/-- Rank used by the sort key of
`RecommendationEngine.generate_recommendations` (recommendation_engine.py
lines 231-233): `{HIGH: 0, MEDIUM: 1, LOW: 2}`. -/
def priorityRank : PriorityLevel → ℕ
  | .high => 0
  | .medium => 1
  | .low => 2

/-- The total preorder underlying the Python sort
`recommendations.sort(key=lambda r: (priority_order[r.priority],
-r.score))`: ascending lexicographic comparison of the key, where
`-a.score ≤ -b.score` is `b.score ≤ a.score`. -/
def recSortLe (a b : Recommendation) : Bool :=
  decide (priorityRank a.priority < priorityRank b.priority) ||
    (decide (priorityRank a.priority = priorityRank b.priority) &&
      decide (b.score ≤ a.score))

/-- `RecommendationEngine.generate_recommendations`
(recommendation_engine.py lines 173-238): cluster the gaps, build one
recommendation per cluster (in cluster-id order, which is dict insertion
order in Python ≥ 3.7), sort with the stable sort `list.sort` by
`(priority rank, -score)` and truncate to `max_recommendations`. -/
def generate_recommendations (dist : GapZone → GapZone → ℚ)
    (gaps : List GapZone) (max_recommendations : ℕ) : List Recommendation :=
  match gaps with
  | [] => []
  | _ :: _ =>
    let clusters := cluster_gaps dist CLUSTERING_RADIUS_KM gaps
    let recommendations := clusters.enum.map (fun c =>
      let centroid := calculate_cluster_centroid c.2
      let population_factor := POPULATION_DENSITY_PER_KM2 / 100
      let score0 := centroid.2.2 * population_factor / 1000
      let score := min (score0 * 10) 10
      { latitude := centroid.1
        longitude := centroid.2.1
        score := score
        priority := calculate_priority score
        population_reached := estimate_population_reached centroid.2.2
        cluster_id := c.1
        gap_count := c.2.length : Recommendation })
    (recommendations.mergeSort recSortLe).take max_recommendations

/- Helper lemmas (shared). -/

theorem okBind {ε α β : Type} (x : α) (f : α → Except ε β) :
    (Except.ok x : Except ε α) >>= f = f x := rfl

theorem errBind {ε α β : Type} (e : ε) (f : α → Except ε β) :
    (Except.error e : Except ε α) >>= f = Except.error e := rfl

theorem okMap {ε α β : Type} (x : α) (f : α → β) :
    (Except.ok x : Except ε α).map f = Except.ok (f x) := rfl

theorem pureOk {ε α : Type} (x : α) : (pure x : Except ε α) = Except.ok x := rfl

theorem friis_ok (log10 : ℚ → ℚ) (f d : ℚ) (hf : 0 < f) (hd : 0 < d) :
    friis_path_loss log10 f d =
      .ok (20 * log10 (d * 1000) + 20 * log10 (f / 1000) + 92.45) := by
  simp only [friis_path_loss, mathLog10]
  rw [if_pos (by linarith : (0:ℚ) < d * 1000),
    if_pos (by positivity : (0:ℚ) < f / 1000)]
  rfl

theorem friis_error (log10 : ℚ → ℚ) (f d : ℚ) (h : f ≤ 0 ∨ d ≤ 0) :
    friis_path_loss log10 f d = .error .mathDomainError := by
  rcases le_or_lt d 0 with hd | hd
  · simp only [friis_path_loss, mathLog10]
    rw [if_neg (by intro hc; nlinarith : ¬ (0:ℚ) < d * 1000)]
    rw [errBind]
  · have hf : f ≤ 0 := h.resolve_right (not_le.mpr hd)
    simp only [friis_path_loss, mathLog10]
    rw [if_pos (by linarith : (0:ℚ) < d * 1000), okBind]
    rw [if_neg (by
      intro hc
      rw [div_pos_iff] at hc
      rcases hc with ⟨h1, _⟩ | ⟨_, h2⟩ <;> linarith : ¬ (0:ℚ) < f / 1000)]
    rw [errBind]

/-- C3: `friis_path_loss` fails with a `DomainError` exactly when the
frequency or the distance is non-positive (Python `math.log10` raises
`ValueError: math domain error` there, surfaced to the caller), and for
all positive inputs it returns
`20*log10(distance_m) + 20*log10(frequency_ghz) + 92.45` without
rejection. -/
theorem friis_domain_error (log10 : ℚ → ℚ) (f d : ℚ) :
    (friis_path_loss log10 f d = .error .mathDomainError ↔ f ≤ 0 ∨ d ≤ 0) ∧
    (0 < f → 0 < d →
      friis_path_loss log10 f d =
        .ok (20 * log10 (d * 1000) + 20 * log10 (f / 1000) + 92.45)) := by
  refine ⟨⟨fun he => ?_, friis_error log10 f d⟩, friis_ok log10 f d⟩
  by_contra hc
  push_neg at hc
  rw [friis_ok log10 f d hc.1 hc.2] at he
  exact Except.noConfusion he

/-- C3, witness: concrete evaluation at 2100 MHz, 1 km with the zero
interpretation of `log10`. -/
theorem friis_domain_error_check :
    friis_path_loss (fun _ => 0) 2100 1 = .ok 92.45 := by
  have h := (friis_domain_error (fun _ => 0) 2100 1).2 (by norm_num) (by norm_num)
  simpa using h

/-- C1 (amended): with the default parameters (tx_power 43 dBm, tx gain
15 dBi, rx gain 0, 2100 MHz, heights 30 m / 1.5 m), for every
`distance_km ≥ 0.01` the estimate is clamped to [-120, 0] dBm; but for
`distance_km < 0.01` the source returns `tx_power_dbm` (43 dBm) directly,
without clamping the distance or the result. -/
theorem estimate_signal_range (log10 : ℚ → ℚ) (d : ℚ) :
    (1/100 ≤ d →
      ∃ v, estimate_signal_from_tower log10 d 43 15 0 2100 30 (3/2) = .ok v ∧
        -120 ≤ v ∧ v ≤ 0) ∧
    (d < 1/100 →
      estimate_signal_from_tower log10 d 43 15 0 2100 30 (3/2) = .ok 43) := by
  constructor
  · intro hd
    simp only [estimate_signal_from_tower, okumura_hata_path_loss, mathLog10]
    rw [if_neg (by rw [show (0.01 : ℚ) = 1/100 by norm_num]; linarith : ¬ d < 0.01)]
    rw [if_neg (by norm_num : ¬ (2100:ℚ) ≤ 200)]
    rw [if_pos (by norm_num : (0:ℚ) < 11.75 * (3/2))]
    rw [if_pos (by norm_num : (0:ℚ) < 2100), if_pos (by norm_num : (0:ℚ) < 30)]
    rw [if_pos (by linarith : (0:ℚ) < d)]
    simp only [okMap, okBind, pureOk]
    rw [if_neg (by decide : ¬ ("urban" = "suburban")),
      if_neg (by decide : ¬ ("urban" = "rural"))]
    simp only [okBind, pureOk]
    refine ⟨_, rfl, le_max_left _ _, ?_⟩
    exact max_le (by norm_num) (min_le_left _ _)
  · intro hd
    simp only [estimate_signal_from_tower]
    rw [if_pos (by rw [show (0.01 : ℚ) = 1/100 by norm_num]; exact hd)]

/-- C1, witness: the clamp bound evaluated at 1 km, and the short-distance
branch evaluated at 0 km, both with the zero interpretation of
`log10`. -/
theorem estimate_signal_range_check :
    ((estimate_signal_from_tower (fun _ => 0) 1 43 15 0 2100 30
        (3/2)).toOption.getD 1 ≤ 0) ∧
    estimate_signal_from_tower (fun _ => 0) 0 43 15 0 2100 30 (3/2) = .ok 43 := by
  constructor
  · obtain ⟨v, hv, _, h2⟩ := (estimate_signal_range (fun _ => 0) 1).1 (by norm_num)
    rw [hv]
    simpa using h2
  · exact (estimate_signal_range (fun _ => 0) 0).2 (by norm_num)

/-- C1, counterexample: at `distance_km = 0` (below 10 m) the function
returns 43 dBm, which is outside the claimed range [-120, 0]; the
distance is not clamped, the unclamped transmit power is returned. -/
theorem estimate_signal_zero_distance_unclamped :
    estimate_signal_from_tower (fun _ => 0) 0 43 15 0 2100 30 (3/2) = .ok 43 ∧
    ¬ ((43 : ℚ) ≤ 0) := by
  refine ⟨?_, by norm_num⟩
  simp only [estimate_signal_from_tower]
  rw [if_pos (by norm_num : (0:ℚ) < 0.01)]

/-- C9: ray casting on the unit square `[[0,0],[0,1],[1,1],[1,0],[0,0]]`
reports (0.5, 0.5) inside and (2, 2) outside. -/
theorem point_in_polygon_unit_square :
    point_in_polygon (1/2, 1/2) [(0,0),(0,1),(1,1),(1,0),(0,0)] = true ∧
    point_in_polygon (2, 2) [(0,0),(0,1),(1,1),(1,0),(0,0)] = false := by
  constructor <;> norm_num [point_in_polygon, pipLoop, min_def, max_def]

/-- C4 (amended): for every `total_area > 0` the source computes exactly
the documented formula `density × typical_coverage_area_km2 ×
min(total_area/typical_coverage_area_km2, 1)` truncated to an integer
(`density = 500`, `typical_coverage_area_km2 = π × 3.5²`); but for
`total_area ≤ 0` — including a gap of area 0 — the source returns the
full typical-footprint population `int(density ×
typical_coverage_area_km2)`, not 0. -/
theorem estimate_population_matches_spec (area : ℚ) :
    (0 < area → estimate_population_reached area = spec_population_formula area) ∧
    (area ≤ 0 → estimate_population_reached area =
      pyInt (500 * (MATH_PI * (3.5 : ℚ) ^ 2))) := by
  constructor
  · intro h
    simp only [estimate_population_reached, spec_population_formula,
      POPULATION_DENSITY_PER_KM2]
    rw [if_pos h]
  · intro h
    simp only [estimate_population_reached, POPULATION_DENSITY_PER_KM2]
    rw [if_neg (not_lt.mpr h)]

/-- C4, witness: the formula branch at area 1 and the fallback branch at
area -1, both concrete. -/
theorem estimate_population_matches_spec_check :
    estimate_population_reached 1 = spec_population_formula 1 ∧
    estimate_population_reached (-1) = pyInt (500 * (MATH_PI * (3.5 : ℚ) ^ 2)) :=
  ⟨(estimate_population_matches_spec 1).1 (by norm_num),
   (estimate_population_matches_spec (-1)).2 (by norm_num)⟩

/-- C4, counterexample: a gap of area 0 yields population 19242 (the full
typical-footprint population), not 0 as the claim's formula demands. -/
theorem estimate_population_at_zero :
    estimate_population_reached 0 = 19242 ∧ spec_population_formula 0 = 0 ∧
    estimate_population_reached 0 ≠ spec_population_formula 0 := by
  refine ⟨?_, ?_, ?_⟩
  · simp only [estimate_population_reached, POPULATION_DENSITY_PER_KM2, MATH_PI, pyInt]
    norm_num
  · simp only [spec_population_formula, MATH_PI, pyInt]
    norm_num
  · simp only [estimate_population_reached, spec_population_formula,
      POPULATION_DENSITY_PER_KM2, MATH_PI, pyInt]
    norm_num

theorem roundHalfEven_le (q : ℚ) : roundHalfEven q ≤ ⌊q⌋ + 1 := by
  simp only [roundHalfEven]
  split_ifs <;> omega

theorem le_roundHalfEven (q : ℚ) : ⌊q⌋ ≤ roundHalfEven q := by
  simp only [roundHalfEven]
  split_ifs <;> omega

theorem roundHalfEven_mono {x y : ℚ} (h : x ≤ y) :
    roundHalfEven x ≤ roundHalfEven y := by
  have hf : ⌊x⌋ ≤ ⌊y⌋ := Int.floor_mono h
  rcases eq_or_lt_of_le hf with heq | hlt
  · simp only [roundHalfEven]
    rw [← heq]
    have hxf : x - ⌊x⌋ ≤ y - ⌊x⌋ := by linarith
    split_ifs <;> first | omega | linarith
  · calc roundHalfEven x ≤ ⌊x⌋ + 1 := roundHalfEven_le x
      _ ≤ ⌊y⌋ := by omega
      _ ≤ roundHalfEven y := le_roundHalfEven y

theorem pyRound_mono {x y : ℚ} (n : ℕ) (h : x ≤ y) : pyRound x n ≤ pyRound y n := by
  unfold pyRound
  have h10 : (0:ℚ) < 10 ^ n := by positivity
  have h1 := roundHalfEven_mono (mul_le_mul_of_nonneg_right h (le_of_lt h10))
  have h2 : ((roundHalfEven (x * 10 ^ n) : ℚ)) ≤ (roundHalfEven (y * 10 ^ n) : ℚ) := by
    exact_mod_cast h1
  gcongr

/-- C5 (amended): for fixed signals (hence fixed polygon, tower list and
grid step) the coverage percentage is monotone *non-decreasing* as the
threshold is relaxed more negative: for thresholds `t2 ≤ t1`,
`coverage_pct` at `t1` is at most `coverage_pct` at `t2` (a point counts
as covered exactly when its estimated `signal_dbm ≥ threshold_dbm`). -/
theorem coverage_pct_threshold_mono (signals : List ℚ) (area t1 t2 : ℚ)
    (h : t2 ≤ t1) :
    (coverage_statistics signals area t1).coverage_pct ≤
      (coverage_statistics signals area t2).coverage_pct := by
  simp only [coverage_statistics]
  apply pyRound_mono
  by_cases hn : signals.length = 0
  · simp [hn]
  · rw [if_neg hn, if_neg hn]
    have hc : signals.countP (fun s => decide (t1 ≤ s)) ≤
        signals.countP (fun s => decide (t2 ≤ s)) := by
      apply List.countP_mono_left
      intro x _ hx
      simp only [decide_eq_true_eq] at hx ⊢
      linarith
    have hc' : ((signals.countP (fun s => decide (t1 ≤ s)) : ℚ)) ≤
        (signals.countP (fun s => decide (t2 ≤ s)) : ℚ) := by exact_mod_cast hc
    have hn' : (0:ℚ) < (signals.length : ℚ) := by
      have := Nat.pos_of_ne_zero hn
      exact_mod_cast this
    gcongr

/-- C5, witness: concrete signal list `[-90, -80]` with thresholds -85 and
-95 dBm. -/
theorem coverage_pct_threshold_mono_check :
    (coverage_statistics [-90, -80] 1 (-85)).coverage_pct ≤
      (coverage_statistics [-90, -80] 1 (-95)).coverage_pct :=
  coverage_pct_threshold_mono [-90, -80] 1 (-85) (-95) (by norm_num)

/-- C5, counterexample: with signals `[-90, -80]`, relaxing the threshold
from -85 to -95 dBm *raises* `coverage_pct` from 50 to 100, refuting the
claimed decrease (`coverage_pct` at the more negative threshold is not
`≤` the one at the less negative threshold). -/
theorem coverage_pct_increases_as_threshold_relaxed :
    (coverage_statistics [-90, -80] 1 (-85)).coverage_pct = 50 ∧
    (coverage_statistics [-90, -80] 1 (-95)).coverage_pct = 100 ∧
    ¬ ((coverage_statistics [-90, -80] 1 (-95)).coverage_pct ≤
        (coverage_statistics [-90, -80] 1 (-85)).coverage_pct) := by
  have h1 : (coverage_statistics [-90, -80] 1 (-85)).coverage_pct = 50 := by
    norm_num [coverage_statistics, pyRound, roundHalfEven, List.countP_cons,
      List.countP_nil]
  have h2 : (coverage_statistics [-90, -80] 1 (-95)).coverage_pct = 100 := by
    norm_num [coverage_statistics, pyRound, roundHalfEven, List.countP_cons,
      List.countP_nil]
  exact ⟨h1, h2, by rw [h1, h2]; norm_num⟩

theorem cluster_gaps_nil (dist : GapZone → GapZone → ℚ) (radius : ℚ) :
    cluster_gaps dist radius [] = [] := by
  simp [cluster_gaps]

theorem cluster_gaps_cons (dist : GapZone → GapZone → ℚ) (radius : ℚ)
    (gap : GapZone) (rest : List GapZone) :
    cluster_gaps dist radius (gap :: rest) =
      (gap :: rest.filter (fun g => decide (dist gap g ≤ radius))) ::
        cluster_gaps dist radius
          (rest.filter (fun g => !decide (dist gap g ≤ radius))) := by
  rw [cluster_gaps]

/-- C6: `cluster_gaps` is a single pass in input order — each
not-yet-assigned gap opens a new cluster that absorbs exactly the
still-unassigned later gaps within the radius of that cluster's *seed*
gap — and consequently, under the 2 km radius, two gaps whose haversine
distance is at most 2 km (for example 100 m apart) form one cluster,
while two gaps whose distance exceeds 2 km (for example 10 km apart)
form two clusters.  `dist` abstracts `haversine_distance`. -/
theorem cluster_gaps_seed_rule (dist : GapZone → GapZone → ℚ) (radius : ℚ) :
    (∀ gap rest, cluster_gaps dist radius (gap :: rest) =
      (gap :: rest.filter (fun g => decide (dist gap g ≤ radius))) ::
        cluster_gaps dist radius
          (rest.filter (fun g => !decide (dist gap g ≤ radius)))) ∧
    (∀ g1 g2, dist g1 g2 ≤ 2 →
      cluster_gaps dist 2 [g1, g2] = [[g1, g2]]) ∧
    (∀ g1 g2, 2 < dist g1 g2 →
      cluster_gaps dist 2 [g1, g2] = [[g1], [g2]]) := by
  refine ⟨cluster_gaps_cons dist radius, ?_, ?_⟩
  · intro g1 g2 h
    rw [cluster_gaps_cons]
    simp [List.filter_cons, h, cluster_gaps_nil]
  · intro g1 g2 h
    rw [cluster_gaps_cons]
    simp [List.filter_cons, not_le.mpr h, cluster_gaps_cons, cluster_gaps_nil]

/-- C6, witness: a two-gap list at distance 0.1 km (100 m) forms one
cluster; at distance 10 km it forms two. -/
theorem cluster_gaps_seed_rule_check :
    cluster_gaps (fun _ _ => 1/10) 2 [⟨0, 0, 1/100⟩, ⟨0, 9/10000, 1/100⟩] =
      [[⟨0, 0, 1/100⟩, ⟨0, 9/10000, 1/100⟩]] ∧
    cluster_gaps (fun _ _ => 10) 2 [⟨0, 0, 1/100⟩, ⟨0, 9/100, 1/100⟩] =
      [[⟨0, 0, 1/100⟩], [⟨0, 9/100, 1/100⟩]] :=
  ⟨(cluster_gaps_seed_rule (fun _ _ => 1/10) 2).2.1 _ _ (by norm_num),
   (cluster_gaps_seed_rule (fun _ _ => 10) 2).2.2 _ _ (by norm_num)⟩

theorem cluster_gaps_flatten_perm_aux (dist : GapZone → GapZone → ℚ)
    (radius : ℚ) : ∀ n (gaps : List GapZone), gaps.length ≤ n →
    (cluster_gaps dist radius gaps).flatten.Perm gaps := by
  intro n
  induction n with
  | zero =>
    intro gaps h
    have hg : gaps = [] := List.eq_nil_of_length_eq_zero (Nat.le_zero.mp h)
    subst hg
    simp [cluster_gaps_nil]
  | succ n ih =>
    intro gaps h
    match gaps with
    | [] => simp [cluster_gaps_nil]
    | g :: rest =>
      rw [cluster_gaps_cons]
      simp only [List.flatten_cons, List.cons_append]
      refine List.Perm.cons g ?_
      have hlen : (rest.filter (fun x => !decide (dist g x ≤ radius))).length ≤ n := by
        have h1 := List.length_filter_le (fun x => !decide (dist g x ≤ radius)) rest
        simp only [List.length_cons] at h
        omega
      exact (List.Perm.append_left _ (ih _ hlen)).trans
        (List.filter_append_perm _ rest)

theorem cluster_gaps_mem_ne_nil (dist : GapZone → GapZone → ℚ) (radius : ℚ) :
    ∀ n (gaps : List GapZone), gaps.length ≤ n →
    ∀ c ∈ cluster_gaps dist radius gaps, c ≠ [] := by
  intro n
  induction n with
  | zero =>
    intro gaps h
    have hg : gaps = [] := List.eq_nil_of_length_eq_zero (Nat.le_zero.mp h)
    subst hg
    simp [cluster_gaps_nil]
  | succ n ih =>
    intro gaps h
    match gaps with
    | [] => simp [cluster_gaps_nil]
    | g :: rest =>
      rw [cluster_gaps_cons]
      intro c hc
      rcases List.mem_cons.mp hc with hc | hc
      · subst hc; simp
      · have hlen : (rest.filter (fun x => !decide (dist g x ≤ radius))).length ≤ n := by
          have h1 := List.length_filter_le (fun x => !decide (dist g x ≤ radius)) rest
          simp only [List.length_cons] at h
          omega
        exact ih _ hlen c hc

/-- C10: the clusters produced by `cluster_gaps` partition the input —
their concatenation is a permutation of the input list (every gap in
exactly one cluster, with multiplicity), no cluster is empty, the cluster
sizes sum to the number of input gaps — and every recommendation returned
by `generate_recommendations` has `gap_count ≥ 1`. -/
theorem clusters_partition (dist : GapZone → GapZone → ℚ) (radius : ℚ)
    (gaps : List GapZone) :
    (cluster_gaps dist radius gaps).flatten.Perm gaps ∧
    (∀ c ∈ cluster_gaps dist radius gaps, c ≠ []) ∧
    ((cluster_gaps dist radius gaps).map List.length).sum = gaps.length ∧
    (∀ maxRecs, ∀ r ∈ generate_recommendations dist gaps maxRecs,
      1 ≤ r.gap_count) := by
  have hperm := cluster_gaps_flatten_perm_aux dist radius gaps.length gaps le_rfl
  have hne := cluster_gaps_mem_ne_nil dist radius gaps.length gaps le_rfl
  refine ⟨hperm, hne, ?_, ?_⟩
  · rw [← List.length_flatten]
    exact hperm.length_eq
  · intro maxRecs r hr
    match gaps with
    | [] => simp [generate_recommendations] at hr
    | g :: rest =>
      simp only [generate_recommendations] at hr
      have hr2 := List.Sublist.mem hr (List.take_sublist _ _)
      have hr3 := (List.mergeSort_perm _ recSortLe).mem_iff.mp hr2
      obtain ⟨⟨i, c⟩, hmem, heq⟩ := List.mem_map.mp hr3
      have hc : c ∈ cluster_gaps dist CLUSTERING_RADIUS_KM (g :: rest) := by
        obtain ⟨hi, hx⟩ := List.mem_enum hmem
        exact hx ▸ List.getElem_mem hi
      have hcne := cluster_gaps_mem_ne_nil dist CLUSTERING_RADIUS_KM
        (g :: rest).length (g :: rest) le_rfl c hc
      have hgc : r.gap_count = c.length := by rw [← heq]
      rw [hgc]
      exact List.length_pos.mpr hcne

theorem recSortLe_trans (a b c : Recommendation) (hab : recSortLe a b = true)
    (hbc : recSortLe b c = true) : recSortLe a c = true := by
  simp only [recSortLe, Bool.or_eq_true, Bool.and_eq_true, decide_eq_true_eq] at *
  rcases hab with h1 | ⟨h1, h2⟩ <;> rcases hbc with h3 | ⟨h3, h4⟩
  · exact Or.inl (h1.trans h3)
  · exact Or.inl (by omega)
  · exact Or.inl (by omega)
  · exact Or.inr ⟨by omega, by linarith⟩

theorem recSortLe_total (a b : Recommendation) :
    (recSortLe a b || recSortLe b a) = true := by
  simp only [recSortLe, Bool.or_eq_true, Bool.and_eq_true, decide_eq_true_eq]
  rcases Nat.lt_trichotomy (priorityRank a.priority) (priorityRank b.priority)
    with h | h | h
  · exact Or.inl (Or.inl h)
  · rcases le_total b.score a.score with hs | hs
    · exact Or.inl (Or.inr ⟨h, hs⟩)
    · exact Or.inr (Or.inr ⟨h.symm, hs⟩)
  · exact Or.inr (Or.inl h)

/-- C7: the list returned by `generate_recommendations` is sorted
ascending by priority rank (high = 0, medium = 1, low = 2) with ties
broken by descending score — priority dominates score — and it has at
most `max_recommendations` elements. -/
theorem recommendations_sorted (dist : GapZone → GapZone → ℚ)
    (gaps : List GapZone) (maxRecs : ℕ) :
    List.Pairwise (fun a b =>
        priorityRank a.priority < priorityRank b.priority ∨
        (priorityRank a.priority = priorityRank b.priority ∧ b.score ≤ a.score))
      (generate_recommendations dist gaps maxRecs) ∧
    (generate_recommendations dist gaps maxRecs).length ≤ maxRecs := by
  constructor
  · match gaps with
    | [] => simp [generate_recommendations]
    | g :: rest =>
      simp only [generate_recommendations]
      apply List.Pairwise.sublist (List.take_sublist _ _)
      refine List.Pairwise.imp ?_
        (List.sorted_mergeSort recSortLe_trans recSortLe_total _)
      intro a b h
      simpa only [recSortLe, Bool.or_eq_true, Bool.and_eq_true,
        decide_eq_true_eq] using h
  · match gaps with
    | [] => simp [generate_recommendations]
    | g :: rest =>
      simp only [generate_recommendations, List.length_take]
      exact min_le_left _ _

theorem gen_recommendations_single (dist : GapZone → GapZone → ℚ)
    (lat lng a : ℚ) (maxRecs : ℕ) (hm : 1 ≤ maxRecs) :
    generate_recommendations dist [⟨lat, lng, a⟩] maxRecs =
      [{ latitude := lat, longitude := lng,
         score := min (a * (500/100) / 1000 * 10) 10,
         priority := calculate_priority (min (a * (500/100) / 1000 * 10) 10),
         population_reached := estimate_population_reached a,
         cluster_id := 0, gap_count := 1 }] := by
  simp only [generate_recommendations, POPULATION_DENSITY_PER_KM2]
  rw [cluster_gaps_cons]
  simp only [List.filter_nil, cluster_gaps_nil]
  rw [show ([[(⟨lat, lng, a⟩ : GapZone)]]).enum = [(0, [⟨lat, lng, a⟩])] from rfl]
  simp only [List.map_cons, List.map_nil]
  rw [List.mergeSort_singleton]
  rw [List.take_of_length_le (by simpa using hm)]
  simp only [calculate_cluster_centroid, List.map_cons, List.map_nil, List.sum_cons,
    List.sum_nil, List.length_cons, List.length_nil]
  norm_num

/-- C2 (amended): a single gap with area `a > 0` yields one recommendation
with score `min(a/20, 10)` — so area 1.0 gives score 0.05 (= 1/20) and
priority "low", not 5.0/"medium" — and doubling the area increases the
score strictly until it is clamped at 10.0 (which happens from area 200
on). -/
theorem single_gap_score (dist : GapZone → GapZone → ℚ) (lat lng a : ℚ)
    (maxRecs : ℕ) (hm : 1 ≤ maxRecs) (ha : 0 < a) :
    ∃ r r2 : Recommendation,
      generate_recommendations dist [⟨lat, lng, a⟩] maxRecs = [r] ∧
      generate_recommendations dist [⟨lat, lng, 2 * a⟩] maxRecs = [r2] ∧
      r.score = min (a / 20) 10 ∧ r2.score = min (a / 10) 10 ∧
      (a = 1 → r.score = 1/20 ∧ r.priority = PriorityLevel.low) ∧
      (a < 200 → r.score < r2.score) ∧
      (200 ≤ a → r.score = 10 ∧ r2.score = 10) := by
  have e1 : a * (500/100) / 1000 * 10 = a / 20 := by ring
  have e2 : (2 * a) * (500/100) / 1000 * 10 = a / 10 := by ring
  refine ⟨_, _, gen_recommendations_single dist lat lng a maxRecs hm,
    gen_recommendations_single dist lat lng (2 * a) maxRecs hm, ?_, ?_, ?_, ?_, ?_⟩
  · simp [e1]
  · simp [e2]
  · intro h1
    subst h1
    norm_num [calculate_priority]
  · intro h200
    simp only [e1, e2]
    have hlt : a / 20 < 10 := by linarith
    rw [min_eq_left (le_of_lt hlt)]
    exact lt_min (by linarith) hlt
  · intro h200
    simp only [e1, e2]
    constructor
    · exact min_eq_right (by linarith)
    · exact min_eq_right (by linarith)

/-- C2, witness: the single unit-area gap evaluated concretely; its score
is 1/20. -/
theorem single_gap_score_check :
    (generate_recommendations (fun _ _ => 0) [⟨0, 0, 1⟩] 5).map
      Recommendation.score = [1/20] := by
  obtain ⟨r, r2, h1, _, _, _, hone, _, _⟩ :=
    single_gap_score (fun _ _ => 0) 0 0 1 5 (by norm_num) (by norm_num)
  rw [h1, List.map_cons, List.map_nil, (hone rfl).1]

/-- C2, counterexample: one gap with `area_km2 = 1.0` produces score 1/20
(= 0.05), not 5.0, and priority "low", not "medium". -/
theorem single_unit_gap_score_not_medium :
    (generate_recommendations (fun _ _ => 0) [⟨0, 0, 1⟩] 5).map
        (fun r => (r.score, r.priority)) = [(1/20, PriorityLevel.low)] ∧
    ¬ ((1 : ℚ)/20 = 5) ∧ PriorityLevel.low ≠ PriorityLevel.medium := by
  refine ⟨?_, by norm_num, by decide⟩
  rw [gen_recommendations_single (fun _ _ => 0) 0 0 1 5 (by norm_num)]
  norm_num [calculate_priority]

theorem lngLoopF_neg_step_none (maxLng step : ℚ) (hstep : step < 0) :
    ∀ fuel lng, lng ≤ maxLng → lngLoopF maxLng step fuel lng = none := by
  intro fuel
  induction fuel with
  | zero => intro lng _; rfl
  | succ n ih =>
    intro lng hlng
    simp only [lngLoopF]
    rw [if_pos hlng, ih (lng + step) (by linarith)]
    rfl

/-- C8: the public interface accepts the polygon
`[[120,0],[121,1],[120,1],[120,0]]` (the request schema constrains
neither polygon latitudes nor longitudes), whose bounding box has center
latitude 120.5; real `cos(radians(120.5)) ≈ -0.509 < 0`, so the derived
longitude step is negative and the inner `while lng <= max_lng` loop of
`generate_grid` never terminates: for every fuel the loop model returns
`none`.  This refutes "terminates and returns a finite, fully
materialized list" for every interface-accepted bounding box. -/
theorem generate_grid_nonterminating (cosRad : ℚ → ℚ)
    (hcos : cosRad (radians ((120 + 121) / 2)) < 0) :
    ∀ fuel, generate_grid cosRad
      (get_polygon_bounds [(120, 0), (121, 1), (120, 1), (120, 0)])
      (1/10) fuel = none := by
  intro fuel
  have hb : get_polygon_bounds [(120, 0), (121, 1), (120, 1), (120, 0)] =
      ⟨120, 121, 0, 1⟩ := by
    simp only [get_polygon_bounds, List.map_cons, List.map_nil, List.foldl_cons,
      List.foldl_nil]
    norm_num [min_def, max_def]
  rw [hb]
  simp only [generate_grid]
  have hstep : (1/10 : ℚ) / (111 * cosRad (radians ((120 + 121) / 2))) < 0 :=
    div_neg_of_pos_of_neg (by norm_num) (by nlinarith)
  cases fuel with
  | zero => rfl
  | succ n =>
    simp only [latLoopF]
    rw [if_pos (by norm_num : (120:ℚ) ≤ 121)]
    rw [lngLoopF_neg_step_none _ _ hstep n 0 (by norm_num)]

/-- C8, witness: a concrete cosine interpretation that is negative at the
center latitude, with fuel 5. -/
theorem generate_grid_nonterminating_check :
    generate_grid (fun _ => -1)
      (get_polygon_bounds [(120, 0), (121, 1), (120, 1), (120, 0)])
      (1/10) 5 = none :=
  generate_grid_nonterminating (fun _ => -1) (by norm_num) 5

end Telecom
